import Mathlib

/-!
Verification of the OSMxtract core: the Overpass QL query builder
(`ql_query`), the HTTP status dispatcher (`request`) and the response
parser (`as_geojson` with its four element-filtering routines), shallowly
embedded from `osmxtract/overpass.py` and `osmxtract/errors.py`.

Modelling conventions:
* Python dictionaries with a known key set become structures whose fields
  are `Option`-valued; `d[key]` becomes `dictGet`, which fails with
  `PyErr.keyError key` exactly when the key is absent, mirroring Python's
  `KeyError`; `d.get(key)` reads the `Option` field directly.
* Fallible Python code (raised exceptions) becomes `Except PyErr` /
  `Except OverpassException` values.
* Coordinate scalars (latitudes and longitudes) are carried as `Int`:
  the code never computes with them, it only moves them around, so any
  value type with decidable equality is a faithful carrier.
* In `ql_query` the four bounding-box numbers are represented by their
  decimal renderings (the strings Python's f-string interpolation
  produces for them), since the builder only ever interpolates them into
  the query text.
-/

/-- Python exceptions raised by the parsing helpers: `KeyError` for a
missing dictionary key, `IndexError` for `value[0]` on an empty string,
and `ValueError` as raised by `as_geojson` for a bad geometry type. -/
inductive PyErr where
  | keyError (key : String)
  | indexError
  | valueError (msg : String)
deriving Repr, DecidableEq

/-- `d[key]` on an `Option`-valued field: `KeyError` when absent. -/
def dictGet {α : Type} (key : String) (x : Option α) : Except PyErr α :=
  match x with
  | some v => Except.ok v
  | none => Except.error (PyErr.keyError key)

/-- A `tags` mapping: string keys to string values (a Python dict, so
keys are unique; lookup takes the first binding). -/
abbrev Tags : Type := List (String × String)

/-- `tags[key]` on a tags mapping: `KeyError` when the key is absent. -/
def tagsGet (tags : Tags) (key : String) : Except PyErr String :=
  match List.lookup key tags with
  | some v => Except.ok v
  | none => Except.error (PyErr.keyError key)

/-- One `{lat, lon}` vertex of a way's or member's inline `geometry`. -/
structure Vertex where
  lat : Int
  lon : Int
deriving Repr, DecidableEq

/-- One member of a relation; the parser only ever reads its `geometry`
key (`role` is carried to show it is never consulted). -/
structure Member where
  role : Option String := none
  geometry : Option (List Vertex) := none
deriving Repr, DecidableEq

/-- One element of an Overpass JSON response: a dictionary whose keys the
parser may read. Every field is optional, as in a JSON object. -/
structure Element where
  type : Option String := none
  id : Option Int := none
  tags : Option Tags := none
  lat : Option Int := none
  lon : Option Int := none
  geometry : Option (List Vertex) := none
  members : Option (List Member) := none
deriving Repr, DecidableEq

/-- The decoded Overpass JSON response: a dictionary from which the
parser reads the `elements` key. -/
structure Response where
  elements : Option (List Element) := none
deriving Repr, DecidableEq

/-- A GeoJSON geometry object as built by the `geojson` constructors used
in the source; a position is the two-item list `[lon, lat]`. -/
inductive Geometry where
  | point (coordinates : List Int)
  | linestring (coordinates : List (List Int))
  | polygon (coordinates : List (List (List Int)))
  | multipolygon (coordinates : List (List (List (List Int))))
deriving Repr, DecidableEq

/-- `geojson.Feature(id, geom, tags)`. -/
structure Feature where
  id : Int
  geometry : Geometry
  properties : Tags
deriving Repr, DecidableEq

/-- `geojson.FeatureCollection(features)`. -/
structure FeatureCollection where
  features : List Feature
deriving Repr, DecidableEq

/-- Effectful map over a list, evaluated left to right, stopping at the
first error — the behaviour of a Python `for` loop that appends to an
accumulator and may raise. -/
def mapE {α β : Type} (f : α → Except PyErr β) : List α → Except PyErr (List β)
  | [] => Except.ok []
  | x :: xs => do
    let y ← f x
    let ys ← mapE f xs
    pure (y :: ys)

/-- Effectful filter over a list, evaluated left to right, stopping at
the first error — the behaviour of a Python list comprehension whose
condition may raise. -/
def filterE {α : Type} (p : α → Except PyErr Bool) : List α → Except PyErr (List α)
  | [] => Except.ok []
  | x :: xs => do
    let b ← p x
    let rest ← filterE p xs
    pure (if b then x :: rest else rest)

/-- `_make_case_insensitive(value)`: replace the first character of a
string by an uppercase-lowercase regex bracket class.
`value[0]` raises `IndexError` on the empty string. -/
def make_case_insensitive (value : String) : Except PyErr String :=
  match value.data with
  | [] => Except.error PyErr.indexError
  | c :: rest =>
    Except.ok ("[" ++ String.mk [c.toLower, c.toUpper] ++ "]" ++ String.mk rest)

/-- `"|".join(values)`. -/
def joinBar : List String → String
  | [] => ""
  | [v] => v
  | v :: vs => v ++ "|" ++ joinBar vs

/-- `_bbox(lat_min, lon_min, lat_max, lon_max)`: format the bounding box,
each number given by its decimal rendering. -/
def bbox_fmt (lat_min lon_min lat_max lon_max : String) : String :=
  "(" ++ lat_min ++ "," ++ lon_min ++ "," ++ lat_max ++ "," ++ lon_max ++ ")"

/-- `ql_query(bounds, tag, values=None, case_insensitive=False, timeout=25)`:
build an Overpass QL query. `values = []` covers both Python's `None` and
the empty list (both falsy under `if values:`). -/
def ql_query (bounds : String × String × String × String) (tag : String)
    (values : List String := []) (case_insensitive : Bool := false)
    (timeout : Nat := 25) : Except PyErr String := do
  let bbox := bbox_fmt bounds.1 bounds.2.1 bounds.2.2.1 bounds.2.2.2
  let query ←
    if values.isEmpty then
      Except.ok ("[\"" ++ tag ++ "\"]")
    else do
      let values ←
        if case_insensitive then mapE make_case_insensitive values
        else Except.ok values
      if values.length > 1 || case_insensitive then
        Except.ok ("[\"" ++ tag ++ "\"~\"" ++ joinBar values ++ "\"]")
      else
        match values with
        | [] => Except.error PyErr.indexError
        | v :: _ => Except.ok ("[\"" ++ tag ++ "\"=\"" ++ v ++ "\"]")
  Except.ok ("[out:json][timeout:" ++ toString timeout ++ "]; nwr" ++ query
    ++ bbox ++ "; out geom qt;")

/-- The exception classes of `osmxtract/errors.py`, plus the JSON decode
failure `response.json()` raises on a body that is not valid JSON. -/
inductive OverpassException where
  | overpassBadRequest
  | overpassMoved
  | overpassTooManyRequests
  | overpassGatewayTimeout
  | jsonDecodeError
deriving Repr, DecidableEq

/-- An HTTP response as the dispatcher sees it: a status code and the
outcome of decoding the body as JSON (`none` when the body is not valid
JSON, so that `response.json()` would raise). -/
structure HttpResponse (α : Type) where
  status_code : Nat
  json : Option α
deriving Repr, DecidableEq

/-- The status-dispatch part of `request(query, endpoint)`: map known
HTTP status codes to typed errors, otherwise decode and return the JSON
body. -/
def request {α : Type} (response : HttpResponse α) : Except OverpassException α :=
  if response.status_code == 302 then
    Except.error OverpassException.overpassMoved
  else if response.status_code == 400 then
    Except.error OverpassException.overpassBadRequest
  else if response.status_code == 429 then
    Except.error OverpassException.overpassTooManyRequests
  else if response.status_code == 504 then
    Except.error OverpassException.overpassGatewayTimeout
  else
    match response.json with
    | some j => Except.ok j
    | none => Except.error OverpassException.jsonDecodeError

/-- `_as_points(elements)`. -/
def as_points (elements : List Element) : Except PyErr FeatureCollection := do
  let filtered := elements.filter (fun e => e.type == some "node")
  let features ← mapE (fun elem => do
    let lon ← dictGet "lon" elem.lon
    let lat ← dictGet "lat" elem.lat
    let id ← dictGet "id" elem.id
    let tags ← dictGet "tags" elem.tags
    Except.ok { id := id, geometry := Geometry.point [lon, lat],
                properties := tags }) filtered
  Except.ok ⟨features⟩

/-- `_as_linestrings(elements)`. -/
def as_linestrings (elements : List Element) : Except PyErr FeatureCollection := do
  let filtered := elements.filter (fun e => e.type == some "way")
  let features ← mapE (fun elem => do
    let geom ← dictGet "geometry" elem.geometry
    let coords := geom.map (fun node => [node.lon, node.lat])
    let id ← dictGet "id" elem.id
    let tags ← dictGet "tags" elem.tags
    Except.ok { id := id, geometry := Geometry.linestring coords,
                properties := tags }) filtered
  Except.ok ⟨features⟩

/-- `_as_polygons(elements)`. -/
def as_polygons (elements : List Element) : Except PyErr FeatureCollection := do
  let filtered := elements.filter (fun e => e.type == some "way")
  let features ← mapE (fun elem => do
    let geom ← dictGet "geometry" elem.geometry
    let coords := geom.map (fun node => [node.lon, node.lat])
    let id ← dictGet "id" elem.id
    let tags ← dictGet "tags" elem.tags
    Except.ok { id := id, geometry := Geometry.polygon [coords],
                properties := tags }) filtered
  Except.ok ⟨features⟩

/-- The filter condition of `_as_multipolygons`:
`e.get('type') == 'relation' and e['tags']['type'] == 'multipolygon'`,
with Python's short-circuit `and` (the `tags` lookups happen only when
the element is typed `relation`). -/
def multipolygonFilter (e : Element) : Except PyErr Bool :=
  if e.type == some "relation" then do
    let tags ← dictGet "tags" e.tags
    let t ← tagsGet tags "type"
    Except.ok (t == "multipolygon")
  else
    Except.ok false

/-- `_as_multipolygons(elements)`. -/
def as_multipolygons (elements : List Element) : Except PyErr FeatureCollection := do
  let filtered ← filterE multipolygonFilter elements
  let features ← mapE (fun elem => do
    let members ← dictGet "members" elem.members
    let coords ← mapE (fun member => do
      let g ← dictGet "geometry" member.geometry
      Except.ok (g.map (fun node => [node.lon, node.lat]))) members
    let id ← dictGet "id" elem.id
    let tags ← dictGet "tags" elem.tags
    Except.ok { id := id, geometry := Geometry.multipolygon [coords],
                properties := tags }) filtered
  Except.ok ⟨features⟩

/-- Python's `str.lower()` on the geometry-kind argument (ASCII: every
character mapped to its lowercase form). -/
def str_lower (s : String) : String := String.mk (s.data.map Char.toLower)

/-- `as_geojson(response, geometry)`: lowercase the kind and dispatch.
Note the source's fourth branch matches the string `multipolygons`
(plural); anything else falls through to `ValueError('Bad geometry
type.')`. The source lowercases `geometry` once and then compares; here
the lowered string is written out at each comparison, which is the same
value. -/
def as_geojson (response : Response) (geometry : String) :
    Except PyErr FeatureCollection :=
  if str_lower geometry == "point" then do
    let elems ← dictGet "elements" response.elements
    as_points elems
  else if str_lower geometry == "linestring" then do
    let elems ← dictGet "elements" response.elements
    as_linestrings elems
  else if str_lower geometry == "polygon" then do
    let elems ← dictGet "elements" response.elements
    as_polygons elems
  else if str_lower geometry == "multipolygons" then do
    let elems ← dictGet "elements" response.elements
    as_multipolygons elems
  else
    Except.error (PyErr.valueError "Bad geometry type.")

/-- Spec-side description (for comparison with `make_case_insensitive`)
of the case-insensitive value transform: the value's first character is
replaced by the two-character bracket class of its lowercase and
uppercase forms, the remaining characters untouched. Total; the claim
only ever applies it to non-empty values. -/
def firstCharClass (v : String) : String :=
  match v.data with
  | [] => v
  | c :: rest => "[" ++ String.mk [c.toLower, c.toUpper] ++ "]" ++ String.mk rest

/-! ## Helper lemmas about the effectful combinators -/

lemma ok_bind {α β : Type} (a : α) (f : α → Except PyErr β) :
    (Except.ok a >>= f : Except PyErr β) = f a := rfl

lemma error_bind {α β : Type} (e : PyErr) (f : α → Except PyErr β) :
    (Except.error e >>= f : Except PyErr β) = Except.error e := rfl

/-- When the body succeeds pointwise, `mapE` is `List.map`. -/
lemma mapE_congr_ok {α β : Type} {f : α → Except PyErr β} {g : α → β} :
    ∀ l : List α, (∀ a ∈ l, f a = Except.ok (g a)) →
      mapE f l = Except.ok (l.map g)
  | [], _ => rfl
  | x :: xs, h => by
    have hx := h x (List.mem_cons_self x xs)
    have hxs := mapE_congr_ok xs (fun a ha => h a (List.mem_cons_of_mem x ha))
    simp [mapE, hx, hxs, ok_bind]

/-- A successful `mapE` determines every projection of its output list. -/
lemma mapE_proj {α β γ : Type} {f : α → Except PyErr β} {proj : β → γ}
    {spec : α → γ} (hfa : ∀ a b, f a = Except.ok b → proj b = spec a) :
    ∀ (l : List α) (out : List β), mapE f l = Except.ok out →
      out.map proj = l.map spec
  | [], out, h => by
    simp [mapE] at h
    simp [← h]
  | x :: xs, out, h => by
    cases hx : f x with
    | error e => simp [mapE, hx, error_bind] at h
    | ok b =>
      cases hxs : mapE f xs with
      | error e => simp [mapE, hx, hxs, ok_bind, error_bind] at h
      | ok ys =>
        simp [mapE, hx, hxs, ok_bind] at h
        have := mapE_proj hfa xs ys hxs
        simp [← h, this, hfa x b hx]

/-- When the condition succeeds pointwise, `filterE` is `List.filter`. -/
lemma filterE_congr_ok {α : Type} {p : α → Except PyErr Bool} {q : α → Bool} :
    ∀ l : List α, (∀ a ∈ l, p a = Except.ok (q a)) →
      filterE p l = Except.ok (l.filter q)
  | [], _ => rfl
  | x :: xs, h => by
    have hx := h x (List.mem_cons_self x xs)
    have hxs := filterE_congr_ok xs (fun a ha => h a (List.mem_cons_of_mem x ha))
    cases hq : q x <;>
      simp [filterE, hx, hxs, hq, ok_bind, List.filter_cons]

/-- An entry on which the condition yields `false` is invisible to
`filterE`. -/
lemma filterE_drop {α : Type} {p : α → Except PyErr Bool} {x : α}
    (hx : p x = Except.ok false) :
    ∀ l1 l2 : List α, filterE p (l1 ++ x :: l2) = filterE p (l1 ++ l2)
  | [], l2 => by
    cases h2 : filterE p l2 <;>
      simp [filterE, hx, h2, ok_bind, error_bind]
  | a :: l1, l2 => by
    have ih := filterE_drop hx l1 l2
    simp [filterE, ih]

/-! ## C1: dispatch on the geometry kind -/

/-- C1: the claim says `as_geojson` accepts the kind `multipolygon`
(matched case-insensitively) and returns the multipolygon feature
collection for it. The code's fourth branch matches `multipolygons`
(plural), so the kind `multipolygon` — the one the CLI offers and the
function's own docstring lists — falls through to
`ValueError('Bad geometry type.')`. -/
theorem C1_as_geojson_multipolygon_rejected :
    as_geojson { elements := some [] } "multipolygon" =
      Except.error (PyErr.valueError "Bad geometry type.") := rfl

/-! ## C2: query text for an empty values list -/

/-- C2: for every bounding box, every tag, no values and the default
timeout of 25, `ql_query` yields exactly the existence-filter query
text, with the bounding box rendered with no internal whitespace. -/
theorem C2_ql_query_existence_filter
    (lat_min lon_min lat_max lon_max tag : String) (ci : Bool) :
    ql_query (lat_min, lon_min, lat_max, lon_max) tag [] ci 25 =
      Except.ok ("[out:json][timeout:25]; nwr[\"" ++ tag ++ "\"](" ++ lat_min
        ++ "," ++ lon_min ++ "," ++ lat_max ++ "," ++ lon_max
        ++ "); out geom qt;") := by
  simp only [ql_query, bbox_fmt, List.isEmpty, if_true, ok_bind]
  simp only [String.append_assoc]
  rfl

/-! ## C3: tag-filter clause selection for a non-empty values list -/

/-- C3: for every non-empty values list the clause is selected by
priority — exactly one value and `case_insensitive` false gives the
exact-match form, anything else gives the regex-alternation form, with
each value's first character replaced by its lower/upper bracket class
when `case_insensitive` is true. -/
theorem C3_ql_query_value_clause
    (lat_min lon_min lat_max lon_max tag : String)
    (values : List String) (ci : Bool) (timeout : Nat)
    (hne : values ≠ [])
    (hv : ci = true → ∀ v ∈ values, v ≠ "") :
    ql_query (lat_min, lon_min, lat_max, lon_max) tag values ci timeout =
      Except.ok ("[out:json][timeout:" ++ toString timeout ++ "]; nwr"
        ++ (if values.length = 1 ∧ ci = false then
              "[\"" ++ tag ++ "\"=\"" ++ values.headD "" ++ "\"]"
            else
              "[\"" ++ tag ++ "\"~\""
                ++ joinBar (if ci then values.map firstCharClass else values)
                ++ "\"]")
        ++ "(" ++ lat_min ++ "," ++ lon_min ++ "," ++ lat_max ++ ","
        ++ lon_max ++ "); out geom qt;") := by
  obtain ⟨v, rest, rfl⟩ : ∃ v rest, values = v :: rest := by
    cases values with
    | nil => exact absurd rfl hne
    | cons v rest => exact ⟨v, rest, rfl⟩
  cases ci with
  | false =>
    cases rest with
    | nil =>
      simp [ql_query, bbox_fmt, ok_bind]
      simp only [String.append_assoc] <;> rfl
    | cons w ws =>
      simp [ql_query, bbox_fmt, ok_bind, Nat.succ_lt_succ]
      simp only [String.append_assoc] <;> rfl
  | true =>
    have hmap : mapE make_case_insensitive (v :: rest) =
        Except.ok ((v :: rest).map firstCharClass) := by
      apply mapE_congr_ok
      intro a ha
      have ha' : a ≠ "" := hv rfl a ha
      cases hd : a.data with
      | nil =>
        exfalso
        apply ha'
        cases a with
        | mk d =>
          simp at hd
          rw [hd]
      | cons c cs => simp [make_case_insensitive, firstCharClass, hd]
    simp [ql_query, bbox_fmt, ok_bind, hmap]
    simp only [String.append_assoc] <;> rfl

/-- Witness for C3: the repository's own multi-value case-insensitive
test case, with both hypotheses discharged at that input. -/
theorem C3_ql_query_value_clause_witness :
    (["primary", "secondary", "tertiary"] ≠ ([] : List String)) ∧
    (∀ v ∈ ["primary", "secondary", "tertiary"], v ≠ "") ∧
    ql_query ("44.84", "3.94", "44.96", "4.09") "highway"
        ["primary", "secondary", "tertiary"] true 25 =
      Except.ok ("[out:json][timeout:25]; nwr[\"highway\"~\"[pP]rimary|[sS]econdary|[tT]ertiary\"](44.84,3.94,44.96,4.09); out geom qt;") :=
  ⟨by decide, by decide,
    (C3_ql_query_value_clause "44.84" "3.94" "44.96" "4.09" "highway"
      ["primary", "secondary", "tertiary"] true 25 (by decide)
      (fun _ => by decide)).trans (by rfl)⟩

/-! ## C4: HTTP status dispatch -/

/-- C4: the dispatcher maps 302, 400, 429 and 504 to their typed errors
whatever the body decodes to (so without consulting the decoded body),
and for 200 and any unrecognized status returns the decoded JSON body
as-is. -/
theorem C4_request_status_dispatch {α : Type} (r : HttpResponse α) :
    (r.status_code = 302 →
      request r = Except.error OverpassException.overpassMoved) ∧
    (r.status_code = 400 →
      request r = Except.error OverpassException.overpassBadRequest) ∧
    (r.status_code = 429 →
      request r = Except.error OverpassException.overpassTooManyRequests) ∧
    (r.status_code = 504 →
      request r = Except.error OverpassException.overpassGatewayTimeout) ∧
    (r.status_code ∉ ([302, 400, 429, 504] : List Nat) →
      ∀ j, r.json = some j → request r = Except.ok j) := by
  refine ⟨?_, ?_, ?_, ?_, ?_⟩ <;> intro h
  · simp [request, h]
  · simp [request, h]
  · simp [request, h]
  · simp [request, h]
  · intro j hj
    simp only [List.mem_cons, List.mem_singleton] at h
    push_neg at h
    obtain ⟨h302, h400, h429, h504⟩ := h
    simp [request, h302, h400, h429, h504, hj]

/-- Witness for C4: all five dispatch behaviours at concrete responses;
the four error statuses carry an undecodable body (`json = none`),
showing the body is never consulted there. -/
theorem C4_request_status_dispatch_witness :
    request ({ status_code := 302, json := none } : HttpResponse Nat) =
      Except.error OverpassException.overpassMoved ∧
    request ({ status_code := 400, json := none } : HttpResponse Nat) =
      Except.error OverpassException.overpassBadRequest ∧
    request ({ status_code := 429, json := none } : HttpResponse Nat) =
      Except.error OverpassException.overpassTooManyRequests ∧
    request ({ status_code := 504, json := none } : HttpResponse Nat) =
      Except.error OverpassException.overpassGatewayTimeout ∧
    request ({ status_code := 200, json := some 5 } : HttpResponse Nat) =
      Except.ok 5 ∧
    request ({ status_code := 418, json := some 7 } : HttpResponse Nat) =
      Except.ok 7 :=
  ⟨(C4_request_status_dispatch _).1 rfl,
   (C4_request_status_dispatch _).2.1 rfl,
   (C4_request_status_dispatch _).2.2.1 rfl,
   (C4_request_status_dispatch _).2.2.2.1 rfl,
   (C4_request_status_dispatch
     ({ status_code := 200, json := some 5 } : HttpResponse Nat)).2.2.2.2
     (by decide) 5 rfl,
   (C4_request_status_dispatch
     ({ status_code := 418, json := some 7 } : HttpResponse Nat)).2.2.2.2
     (by decide) 7 rfl⟩

/-! ## Dispatch of the recognized kind strings -/

lemma as_geojson_point (resp : Response) :
    as_geojson resp "point" =
      (dictGet "elements" resp.elements >>= fun elems => as_points elems) := rfl

lemma as_geojson_linestring (resp : Response) :
    as_geojson resp "linestring" =
      (dictGet "elements" resp.elements >>= fun elems => as_linestrings elems) := rfl

lemma as_geojson_polygon (resp : Response) :
    as_geojson resp "polygon" =
      (dictGet "elements" resp.elements >>= fun elems => as_polygons elems) := rfl

/-! ## C5: kind `point` keeps exactly the nodes -/

/-- C5: on a response whose node-typed elements carry their fields,
kind `point` produces one Feature per element typed `node`, in order,
with geometry `Point [lon, lat]`; every other element is silently
dropped. -/
theorem C5_point_features (resp : Response) (es : List Element)
    (helems : resp.elements = some es)
    (hwf : ∀ e ∈ es, e.type = some "node" →
      e.lon.isSome ∧ e.lat.isSome ∧ e.id.isSome ∧ e.tags.isSome) :
    as_geojson resp "point" =
      Except.ok ⟨(es.filter (fun e => e.type == some "node")).map
        (fun e => { id := e.id.getD 0,
                    geometry := Geometry.point [e.lon.getD 0, e.lat.getD 0],
                    properties := e.tags.getD [] })⟩ := by
  rw [as_geojson_point, helems]
  simp only [dictGet, ok_bind]
  have hpt : ∀ e ∈ es.filter (fun e => e.type == some "node"),
      (fun elem => do
        let lon ← dictGet "lon" elem.lon
        let lat ← dictGet "lat" elem.lat
        let id ← dictGet "id" elem.id
        let tags ← dictGet "tags" elem.tags
        Except.ok { id := id, geometry := Geometry.point [lon, lat],
                    properties := tags }) e =
      Except.ok ({ id := e.id.getD 0,
                   geometry := Geometry.point [e.lon.getD 0, e.lat.getD 0],
                   properties := e.tags.getD [] } : Feature) := by
    intro e he
    obtain ⟨hmem, htype⟩ := List.mem_filter.mp he
    have htype' : e.type = some "node" := by simpa using htype
    obtain ⟨hlon, hlat, hid, htags⟩ := hwf e hmem htype'
    obtain ⟨lo, hlo⟩ := Option.isSome_iff_exists.mp hlon
    obtain ⟨la, hla⟩ := Option.isSome_iff_exists.mp hlat
    obtain ⟨i, hi⟩ := Option.isSome_iff_exists.mp hid
    obtain ⟨t, ht⟩ := Option.isSome_iff_exists.mp htags
    simp [dictGet, hlo, hla, hi, ht, ok_bind]
  rw [as_points, mapE_congr_ok _ hpt, ok_bind]

/-- Witness for C5: a node, a way and a bare relation; only the node
becomes a Feature, at `[lon, lat]`. -/
theorem C5_point_features_witness :
    as_geojson
      ⟨some
        [{ type := some "node", id := some 7,
           tags := some [("amenity", "bar")], lat := some 10, lon := some 20 },
         { type := some "way", id := some 8, tags := some [],
           geometry := some [{ lat := 1, lon := 2 }] },
         { type := some "relation" }]⟩ "point" =
      Except.ok ⟨[{ id := 7, geometry := Geometry.point [20, 10],
                    properties := [("amenity", "bar")] }]⟩ :=
  (C5_point_features _ _ rfl (by decide)).trans (by rfl)

/-! ## C6: kind `linestring` keeps exactly the ways -/

/-- C6: on a response whose way-typed elements carry their fields, kind
`linestring` produces one Feature per element typed `way`, whose
LineString coordinates are the way's `geometry` vertices in order, each
`{lat, lon}` vertex emitted as `[lon, lat]`. -/
theorem C6_linestring_features (resp : Response) (es : List Element)
    (helems : resp.elements = some es)
    (hwf : ∀ e ∈ es, e.type = some "way" →
      e.geometry.isSome ∧ e.id.isSome ∧ e.tags.isSome) :
    as_geojson resp "linestring" =
      Except.ok ⟨(es.filter (fun e => e.type == some "way")).map
        (fun e => { id := e.id.getD 0,
                    geometry := Geometry.linestring
                      ((e.geometry.getD []).map (fun node => [node.lon, node.lat])),
                    properties := e.tags.getD [] })⟩ := by
  rw [as_geojson_linestring, helems]
  simp only [dictGet, ok_bind]
  have hpt : ∀ e ∈ es.filter (fun e => e.type == some "way"),
      (fun elem => do
        let geom ← dictGet "geometry" elem.geometry
        let coords := geom.map (fun node => [node.lon, node.lat])
        let id ← dictGet "id" elem.id
        let tags ← dictGet "tags" elem.tags
        Except.ok { id := id, geometry := Geometry.linestring coords,
                    properties := tags }) e =
      Except.ok ({ id := e.id.getD 0,
                   geometry := Geometry.linestring
                     ((e.geometry.getD []).map (fun node => [node.lon, node.lat])),
                   properties := e.tags.getD [] } : Feature) := by
    intro e he
    obtain ⟨hmem, htype⟩ := List.mem_filter.mp he
    have htype' : e.type = some "way" := by simpa using htype
    obtain ⟨hgeom, hid, htags⟩ := hwf e hmem htype'
    obtain ⟨g, hg⟩ := Option.isSome_iff_exists.mp hgeom
    obtain ⟨i, hi⟩ := Option.isSome_iff_exists.mp hid
    obtain ⟨t, ht⟩ := Option.isSome_iff_exists.mp htags
    simp [dictGet, hg, hi, ht, ok_bind]
  rw [as_linestrings, mapE_congr_ok _ hpt, ok_bind]

/-- Witness for C6: one way with two vertices and one node; only the way
becomes a Feature, vertices in element order, each flipped to
`[lon, lat]`. -/
theorem C6_linestring_features_witness :
    as_geojson
      ⟨some
        [{ type := some "way", id := some 8, tags := some [("highway", "path")],
           geometry := some [{ lat := 1, lon := 2 }, { lat := 3, lon := 4 }] },
         { type := some "node", id := some 7, tags := some [],
           lat := some 10, lon := some 20 }]⟩ "linestring" =
      Except.ok ⟨[{ id := 8, geometry := Geometry.linestring [[2, 1], [4, 3]],
                    properties := [("highway", "path")] }]⟩ :=
  (C6_linestring_features _ _ rfl (by decide)).trans (by rfl)

/-! ## C7: kind `polygon` keeps exactly the ways, one unclosed ring -/

/-- C7: on a response whose way-typed elements carry their fields, kind
`polygon` produces one Feature per element typed `way`, whose Polygon
has exactly one ring — the way's `geometry` vertex list mapped to
`[lon, lat]`, passed through unchanged: no closure is enforced and no
hole support exists. -/
theorem C7_polygon_features (resp : Response) (es : List Element)
    (helems : resp.elements = some es)
    (hwf : ∀ e ∈ es, e.type = some "way" →
      e.geometry.isSome ∧ e.id.isSome ∧ e.tags.isSome) :
    as_geojson resp "polygon" =
      Except.ok ⟨(es.filter (fun e => e.type == some "way")).map
        (fun e => { id := e.id.getD 0,
                    geometry := Geometry.polygon
                      [(e.geometry.getD []).map (fun node => [node.lon, node.lat])],
                    properties := e.tags.getD [] })⟩ := by
  rw [as_geojson_polygon, helems]
  simp only [dictGet, ok_bind]
  have hpt : ∀ e ∈ es.filter (fun e => e.type == some "way"),
      (fun elem => do
        let geom ← dictGet "geometry" elem.geometry
        let coords := geom.map (fun node => [node.lon, node.lat])
        let id ← dictGet "id" elem.id
        let tags ← dictGet "tags" elem.tags
        Except.ok { id := id, geometry := Geometry.polygon [coords],
                    properties := tags }) e =
      Except.ok ({ id := e.id.getD 0,
                   geometry := Geometry.polygon
                     [(e.geometry.getD []).map (fun node => [node.lon, node.lat])],
                   properties := e.tags.getD [] } : Feature) := by
    intro e he
    obtain ⟨hmem, htype⟩ := List.mem_filter.mp he
    have htype' : e.type = some "way" := by simpa using htype
    obtain ⟨hgeom, hid, htags⟩ := hwf e hmem htype'
    obtain ⟨g, hg⟩ := Option.isSome_iff_exists.mp hgeom
    obtain ⟨i, hi⟩ := Option.isSome_iff_exists.mp hid
    obtain ⟨t, ht⟩ := Option.isSome_iff_exists.mp htags
    simp [dictGet, hg, hi, ht, ok_bind]
  rw [as_polygons, mapE_congr_ok _ hpt, ok_bind]

/-- Witness for C7: a way whose vertex list is not closed (first vertex
`(0,0)`, last vertex `(2,0)`) still yields a single-ring Polygon with the
ring emitted unchanged. -/
theorem C7_polygon_features_witness :
    as_geojson
      ⟨some
        [{ type := some "way", id := some 9, tags := some [("building", "yes")],
           geometry := some [{ lat := 0, lon := 0 }, { lat := 1, lon := 1 },
                             { lat := 2, lon := 0 }] }]⟩ "polygon" =
      Except.ok ⟨[{ id := 9,
                    geometry := Geometry.polygon [[[0, 0], [1, 1], [0, 2]]],
                    properties := [("building", "yes")] }]⟩ :=
  (C7_polygon_features _ _ rfl (by decide)).trans (by rfl)

/-! ## C8: the multipolygon routine -/

/-- C8: `_as_multipolygons` keeps exactly the elements typed `relation`
whose tags have `type = multipolygon`; each becomes a MultiPolygon of
exactly one polygon whose ring list has one ring per member in member
order — each ring the member's `geometry` vertices as `[lon, lat]` —
with member roles never consulted. -/
theorem C8_multipolygon_features (es : List Element)
    (hwf : ∀ e ∈ es, e.type = some "relation" →
      e.tags.isSome ∧ (List.lookup "type" (e.tags.getD [])).isSome ∧
      (List.lookup "type" (e.tags.getD []) = some "multipolygon" →
        e.members.isSome ∧ e.id.isSome ∧
        ∀ m ∈ e.members.getD [], m.geometry.isSome)) :
    as_multipolygons es =
      Except.ok ⟨(es.filter (fun e => e.type == some "relation" &&
          (List.lookup "type" (e.tags.getD []) == some "multipolygon"))).map
        (fun e => { id := e.id.getD 0,
                    geometry := Geometry.multipolygon
                      [(e.members.getD []).map (fun m =>
                        (m.geometry.getD []).map (fun node => [node.lon, node.lat]))],
                    properties := e.tags.getD [] })⟩ := by
  have hfil : ∀ e ∈ es, multipolygonFilter e =
      Except.ok (e.type == some "relation" &&
        (List.lookup "type" (e.tags.getD []) == some "multipolygon")) := by
    intro e he
    by_cases hrel : e.type = some "relation"
    · obtain ⟨htags, hlook, _⟩ := hwf e he hrel
      obtain ⟨t, ht⟩ := Option.isSome_iff_exists.mp htags
      rw [ht] at hlook
      simp only [Option.getD_some] at hlook
      obtain ⟨ty, hty⟩ := Option.isSome_iff_exists.mp hlook
      simp [multipolygonFilter, hrel, dictGet, ht, tagsGet, ok_bind, hty]
    · have hb : (e.type == some "relation") = false := by simp [hrel]
      simp [multipolygonFilter, hb, hrel]
  rw [as_multipolygons, filterE_congr_ok es hfil, ok_bind]
  have hpt : ∀ e ∈ es.filter (fun e => e.type == some "relation" &&
      (List.lookup "type" (e.tags.getD []) == some "multipolygon")),
      (fun elem => do
        let members ← dictGet "members" elem.members
        let coords ← mapE (fun member => do
          let g ← dictGet "geometry" member.geometry
          Except.ok (g.map (fun node => [node.lon, node.lat]))) members
        let id ← dictGet "id" elem.id
        let tags ← dictGet "tags" elem.tags
        Except.ok { id := id, geometry := Geometry.multipolygon [coords],
                    properties := tags }) e =
      Except.ok ({ id := e.id.getD 0,
                   geometry := Geometry.multipolygon
                     [(e.members.getD []).map (fun m =>
                       (m.geometry.getD []).map (fun node => [node.lon, node.lat]))],
                   properties := e.tags.getD [] } : Feature) := by
    intro e he
    obtain ⟨hmem, hq⟩ := List.mem_filter.mp he
    have hrel : e.type = some "relation" := by
      have := (Bool.and_eq_true _ _).mp hq
      simpa using this.1
    have hlook : List.lookup "type" (e.tags.getD []) = some "multipolygon" := by
      have := (Bool.and_eq_true _ _).mp hq
      simpa using this.2
    obtain ⟨htags, _, hrest⟩ := hwf e hmem hrel
    obtain ⟨hmems, hid, hgeos⟩ := hrest hlook
    obtain ⟨ms, hms⟩ := Option.isSome_iff_exists.mp hmems
    obtain ⟨i, hi⟩ := Option.isSome_iff_exists.mp hid
    obtain ⟨t, ht⟩ := Option.isSome_iff_exists.mp htags
    have hin : ∀ m ∈ ms,
        (fun member => do
          let g ← dictGet "geometry" member.geometry
          Except.ok (g.map (fun node => [node.lon, node.lat]))) m =
        Except.ok ((m.geometry.getD []).map (fun node => [node.lon, node.lat])) := by
      intro m hm
      have hmg : m.geometry.isSome := by
        apply hgeos
        rw [hms]
        simpa using hm
      obtain ⟨mg, hmgv⟩ := Option.isSome_iff_exists.mp hmg
      simp [dictGet, hmgv, ok_bind]
    beta_reduce
    rw [hms, hi, ht]
    rw [show dictGet "members" (some ms) = Except.ok ms from rfl, ok_bind]
    rw [mapE_congr_ok ms hin, ok_bind]
    simp [dictGet, ok_bind]
  rw [mapE_congr_ok _ hpt, ok_bind]

/-- Witness for C8: a multipolygon relation with an outer and an inner
member, a relation tagged `route` (dropped), and a bare node (dropped);
the outer/inner roles change nothing — both members land as rings of
the single polygon. -/
theorem C8_multipolygon_features_witness :
    as_multipolygons
      [{ type := some "relation", id := some 3,
         tags := some [("type", "multipolygon")],
         members := some
           [{ role := some "outer",
              geometry := some [{ lat := 1, lon := 2 }, { lat := 3, lon := 4 }] },
            { role := some "inner",
              geometry := some [{ lat := 5, lon := 6 }] }] },
       { type := some "relation", id := some 4, tags := some [("type", "route")] },
       { type := some "node" }] =
      Except.ok ⟨[{ id := 3,
                    geometry := Geometry.multipolygon [[[[2, 1], [4, 3]], [[6, 5]]]],
                    properties := [("type", "multipolygon")] }]⟩ :=
  (C8_multipolygon_features _ (by decide)).trans (by rfl)

/-! ## C9: id and tags carried verbatim -/

lemma bindFC_ok {f : Except PyErr (List Feature)} {fc : FeatureCollection}
    (h : (f >>= fun features => Except.ok (⟨features⟩ : FeatureCollection)) =
      Except.ok fc) :
    f = Except.ok fc.features := by
  cases f with
  | error e => rw [error_bind] at h; exact Except.noConfusion h
  | ok out =>
    rw [ok_bind] at h
    cases h
    rfl

/-- C9: whenever any of the four parsing routines succeeds, the features
it produced carry, in order, exactly the `id` and the untransformed
`tags` mapping of the elements that passed that routine's filter. -/
theorem C9_id_and_tags_verbatim :
    (∀ (es : List Element) (fc : FeatureCollection),
      as_points es = Except.ok fc →
      fc.features.map (fun f => (some f.id, some f.properties)) =
        (es.filter (fun e => e.type == some "node")).map (fun e => (e.id, e.tags))) ∧
    (∀ (es : List Element) (fc : FeatureCollection),
      as_linestrings es = Except.ok fc →
      fc.features.map (fun f => (some f.id, some f.properties)) =
        (es.filter (fun e => e.type == some "way")).map (fun e => (e.id, e.tags))) ∧
    (∀ (es : List Element) (fc : FeatureCollection),
      as_polygons es = Except.ok fc →
      fc.features.map (fun f => (some f.id, some f.properties)) =
        (es.filter (fun e => e.type == some "way")).map (fun e => (e.id, e.tags))) ∧
    (∀ (es kept : List Element) (fc : FeatureCollection),
      filterE multipolygonFilter es = Except.ok kept →
      as_multipolygons es = Except.ok fc →
      fc.features.map (fun f => (some f.id, some f.properties)) =
        kept.map (fun e => (e.id, e.tags))) := by
  refine ⟨?_, ?_, ?_, ?_⟩
  · intro es fc h
    rw [as_points] at h
    apply mapE_proj ?_ _ _ (bindFC_ok h)
    intro a b hab
    cases hlon : a.lon with
    | none => simp [dictGet, hlon, error_bind] at hab
    | some lo =>
      cases hlat : a.lat with
      | none => simp [dictGet, hlon, hlat, ok_bind, error_bind] at hab
      | some la =>
        cases hid : a.id with
        | none => simp [dictGet, hlon, hlat, hid, ok_bind, error_bind] at hab
        | some i =>
          cases htg : a.tags with
          | none => simp [dictGet, hlon, hlat, hid, htg, ok_bind, error_bind] at hab
          | some t =>
            simp [dictGet, hlon, hlat, hid, htg, ok_bind] at hab
            simp [← hab, hid, htg]
  · intro es fc h
    rw [as_linestrings] at h
    apply mapE_proj ?_ _ _ (bindFC_ok h)
    intro a b hab
    cases hg : a.geometry with
    | none => simp [dictGet, hg, error_bind] at hab
    | some g =>
      cases hid : a.id with
      | none => simp [dictGet, hg, hid, ok_bind, error_bind] at hab
      | some i =>
        cases htg : a.tags with
        | none => simp [dictGet, hg, hid, htg, ok_bind, error_bind] at hab
        | some t =>
          simp [dictGet, hg, hid, htg, ok_bind] at hab
          simp [← hab, hid, htg]
  · intro es fc h
    rw [as_polygons] at h
    apply mapE_proj ?_ _ _ (bindFC_ok h)
    intro a b hab
    cases hg : a.geometry with
    | none => simp [dictGet, hg, error_bind] at hab
    | some g =>
      cases hid : a.id with
      | none => simp [dictGet, hg, hid, ok_bind, error_bind] at hab
      | some i =>
        cases htg : a.tags with
        | none => simp [dictGet, hg, hid, htg, ok_bind, error_bind] at hab
        | some t =>
          simp [dictGet, hg, hid, htg, ok_bind] at hab
          simp [← hab, hid, htg]
  · intro es kept fc hk h
    rw [as_multipolygons, hk, ok_bind] at h
    apply mapE_proj ?_ _ _ (bindFC_ok h)
    intro a b hab
    cases hmem : a.members with
    | none => simp [dictGet, hmem, error_bind] at hab
    | some ms =>
      beta_reduce at hab
      rw [hmem, show dictGet "members" (some ms) = Except.ok ms from rfl,
        ok_bind] at hab
      cases hco : mapE (fun member => do
          let g ← dictGet "geometry" member.geometry
          Except.ok (g.map (fun node => [node.lon, node.lat]))) ms with
      | error err => rw [hco, error_bind] at hab; exact Except.noConfusion hab
      | ok coords =>
        rw [hco, ok_bind] at hab
        cases hid : a.id with
        | none => simp [dictGet, hid, error_bind] at hab
        | some i =>
          cases htg : a.tags with
          | none => simp [dictGet, hid, htg, ok_bind, error_bind] at hab
          | some t =>
            simp [dictGet, hid, htg, ok_bind] at hab
            simp [← hab, hid, htg]

/-- Witness for C9: each routine applied to a one-element response whose
element has id and tags; the produced feature carries them verbatim. -/
theorem C9_id_and_tags_verbatim_witness :
    ((⟨[{ id := 1, geometry := Geometry.point [0, 0], properties := [("a", "b")] }]⟩ :
        FeatureCollection).features.map (fun f => (some f.id, some f.properties)) =
      ([({ type := some "node", id := some 1, tags := some [("a", "b")],
           lat := some 0, lon := some 0 } : Element)].filter
        (fun e => e.type == some "node")).map (fun e => (e.id, e.tags))) ∧
    ((⟨[{ id := 2, geometry := Geometry.linestring [], properties := [] }]⟩ :
        FeatureCollection).features.map (fun f => (some f.id, some f.properties)) =
      ([({ type := some "way", id := some 2, tags := some [],
           geometry := some [] } : Element)].filter
        (fun e => e.type == some "way")).map (fun e => (e.id, e.tags))) ∧
    ((⟨[{ id := 2, geometry := Geometry.polygon [[]], properties := [] }]⟩ :
        FeatureCollection).features.map (fun f => (some f.id, some f.properties)) =
      ([({ type := some "way", id := some 2, tags := some [],
           geometry := some [] } : Element)].filter
        (fun e => e.type == some "way")).map (fun e => (e.id, e.tags))) ∧
    ((⟨[{ id := 3, geometry := Geometry.multipolygon [[]],
          properties := [("type", "multipolygon")] }]⟩ :
        FeatureCollection).features.map (fun f => (some f.id, some f.properties)) =
      [({ type := some "relation", id := some 3,
          tags := some [("type", "multipolygon")],
          members := some [] } : Element)].map (fun e => (e.id, e.tags))) :=
  ⟨C9_id_and_tags_verbatim.1 _ _ rfl,
   C9_id_and_tags_verbatim.2.1 _ _ rfl,
   C9_id_and_tags_verbatim.2.2.1 _ _ rfl,
   C9_id_and_tags_verbatim.2.2.2
     [({ type := some "relation", id := some 3,
         tags := some [("type", "multipolygon")],
         members := some [] } : Element)] _ _ rfl rfl⟩

/-! ## C10: wrongly-typed elements are dropped unread -/

/-- C10: an element whose `type` is absent or differs from the requested
kind's filtered type is invisible to the routine, whatever its other
fields — in particular it may lack `id`, `tags`, `lat`/`lon`, `geometry`
and `members` entirely without causing any error; for the multipolygon
routine this holds for every element not typed `relation` (only
relation-typed elements get their tags' `type` entry read during
filtering). -/
theorem C10_wrong_type_unread :
    (∀ e : Element, e.type ≠ some "node" → ∀ es1 es2 : List Element,
      as_points (es1 ++ e :: es2) = as_points (es1 ++ es2)) ∧
    (∀ e : Element, e.type ≠ some "way" → ∀ es1 es2 : List Element,
      as_linestrings (es1 ++ e :: es2) = as_linestrings (es1 ++ es2)) ∧
    (∀ e : Element, e.type ≠ some "way" → ∀ es1 es2 : List Element,
      as_polygons (es1 ++ e :: es2) = as_polygons (es1 ++ es2)) ∧
    (∀ e : Element, e.type ≠ some "relation" → ∀ es1 es2 : List Element,
      as_multipolygons (es1 ++ e :: es2) = as_multipolygons (es1 ++ es2)) := by
  refine ⟨?_, ?_, ?_, ?_⟩ <;> intro e he es1 es2
  · have hb : (e.type == some "node") = false := by simp [he]
    simp [as_points, List.filter_append, List.filter_cons, hb]
  · have hb : (e.type == some "way") = false := by simp [he]
    simp [as_linestrings, List.filter_append, List.filter_cons, hb]
  · have hb : (e.type == some "way") = false := by simp [he]
    simp [as_polygons, List.filter_append, List.filter_cons, hb]
  · have hb : multipolygonFilter e = Except.ok false := by
      have hbe : (e.type == some "relation") = false := by simp [he]
      simp [multipolygonFilter, hbe]
    simp [as_multipolygons, filterE_drop hb]

/-- Witness for C10: elements that carry nothing but (at most) a type —
no id, tags, coordinates, geometry or members — vanish from each
routine's output instead of raising. -/
theorem C10_wrong_type_unread_witness :
    as_points [({ type := none } : Element)] = as_points [] ∧
    as_linestrings [({ type := some "node" } : Element)] = as_linestrings [] ∧
    as_polygons [({ type := none } : Element)] = as_polygons [] ∧
    as_multipolygons [({ type := some "way" } : Element)] = as_multipolygons [] :=
  ⟨C10_wrong_type_unread.1 _ (by decide) [] [],
   C10_wrong_type_unread.2.1 _ (by decide) [] [],
   C10_wrong_type_unread.2.2.1 _ (by decide) [] [],
   C10_wrong_type_unread.2.2.2 _ (by decide) [] []⟩
